import Mathlib

/-!
Verification of the thread-affinity and logical-clock primitives of
`src/utils.hpp` (rethinkdb support layer), shallowly embedded in Lean 4.

Machine integers are modelled as `Nat` with explicit `% 2^32` where the
C++ `uint32_t` arithmetic can wrap.  Thread ids are `Int` (the C++ type
is `int`, with `INVALID_THREAD = -1`).  Bodies that exist only as
declarations in the provided header (the `repli_max` body, the
`on_thread_t` constructor/destructor bodies, the diagnostics-build body
of `assert_thread`) are modelled from the specification and marked as
such in their doc comments.
-/

/-- `uint32_t` modulus: the wrap-around boundary of the `time` counter. -/
def U32_MOD : Nat := 2 ^ 32

/-- From `utils.hpp` lines 18-37: `repli_timestamp_t` is an arbitrary
32-bit counter; the single field is `uint32_t time`, modelled as a `Nat`
(well-formed values satisfy `time < U32_MOD`). -/
structure repli_timestamp_t where
  time : Nat
deriving DecidableEq, Repr

/-- Well-formedness of the embedding: the counter fits in `uint32_t`. -/
def repli_timestamp_t.wf (x : repli_timestamp_t) : Prop := x.time < U32_MOD

instance (x : repli_timestamp_t) : Decidable x.wf := by
  unfold repli_timestamp_t.wf; infer_instance

/-- `operator==` (utils.hpp:22): `time == t.time`. -/
def repli_timestamp_t.eq (a b : repli_timestamp_t) : Bool := a.time == b.time

/-- `operator!=` (utils.hpp:23): `time != t.time`. -/
def repli_timestamp_t.ne (a b : repli_timestamp_t) : Bool := a.time != b.time

/-- `operator<` (utils.hpp:24): `time < t.time`. -/
def repli_timestamp_t.lt (a b : repli_timestamp_t) : Bool := decide (a.time < b.time)

/-- `operator>` (utils.hpp:25): `time > t.time`. -/
def repli_timestamp_t.gt (a b : repli_timestamp_t) : Bool := decide (a.time > b.time)

/-- `operator<=` (utils.hpp:26): `time <= t.time`. -/
def repli_timestamp_t.le (a b : repli_timestamp_t) : Bool := decide (a.time ≤ b.time)

/-- `operator>=` (utils.hpp:27): `time >= t.time`. -/
def repli_timestamp_t.ge (a b : repli_timestamp_t) : Bool := decide (a.time ≥ b.time)

/-- `repli_timestamp_t::next` (utils.hpp:29-33): `t.time = time + 1` in
`uint32_t` arithmetic, which wraps modulo `2^32`. -/
def repli_timestamp_t.next (x : repli_timestamp_t) : repli_timestamp_t :=
  ⟨(x.time + 1) % U32_MOD⟩

/-- Modelled from the spec: the body of `repli_max` is not in the provided
source (utils.hpp:66 only declares it).  Per spec §4.3, `combine(x, y)`
"returns the numerically greater of `x`, `y`". -/
def repli_max (x y : repli_timestamp_t) : repli_timestamp_t :=
  if x.time < y.time then y else x

/-- Modelled from the spec: the constant definitions are not in the provided
source (utils.hpp:35 only declares `distant_past`).  Per spec §3 it is the
numerically minimal counter value, dominated by every value under merge. -/
def repli_timestamp_t.distant_past : repli_timestamp_t := ⟨0⟩

/-- `ceil_aligned` (utils.hpp:71-74), on the non-negative, non-overflowing
domain the claim restricts to:
`value + alignment - (((value + alignment - 1) % alignment) + 1)`. -/
def ceil_aligned (value alignment : Nat) : Nat :=
  value + alignment - (((value + alignment - 1) % alignment) + 1)

/-- Thread-registry state visible to this module: the calling task's
current thread, as reported by `current_thread()` (spec §6). -/
structure ThreadState where
  current : Int
deriving DecidableEq, Repr

/-- From `utils.hpp` lines 178-199: the home-thread mixin carries the field
`int real_home_thread`. -/
structure home_thread_mixin_t where
  real_home_thread : Int
deriving DecidableEq, Repr

/-- `home_thread()` (utils.hpp:180): returns `real_home_thread`. -/
def home_thread_mixin_t.home_thread (m : home_thread_mixin_t) : Int :=
  m.real_home_thread

/-- Modelled from the spec: the diagnostics-build (`#ifndef NDEBUG`) body of
`assert_thread` is not in the provided source (utils.hpp:183 only declares
it).  Per spec §4.1 it compares the registry's current thread against
`home_thread()` and terminates the process if they differ; termination is
embedded as `none`, successful return as `some ()`. -/
def home_thread_mixin_t.assert_thread_debug (m : home_thread_mixin_t)
    (s : ThreadState) : Option Unit :=
  if s.current = m.home_thread then some () else none

/-- `assert_thread` in the NDEBUG build (utils.hpp:185): the body is `{ }`,
a no-op; embedded as the identity on the thread state. -/
def home_thread_mixin_t.assert_thread_ndebug (_m : home_thread_mixin_t)
    (s : ThreadState) : ThreadState := s

/-- The scoped switch guard `on_thread_t` (utils.hpp:213-217): it records
the origin thread (its home thread, bound at construction) and the target
thread it switched to. -/
structure on_thread_t where
  origin : Int
  target : Int
deriving DecidableEq, Repr

/-- Modelled from the spec: the `on_thread_t` constructor body is not in
the provided source (utils.hpp:215 only declares it).  Per spec §4.2,
construction records `origin := current_thread()`; if `origin == target`
no migration is performed (fast path), otherwise the task migrates to
`target`. -/
def on_thread_construct (s : ThreadState) (target : Int) :
    on_thread_t × ThreadState :=
  let g : on_thread_t := ⟨s.current, target⟩
  if s.current = target then (g, s) else (g, ⟨target⟩)

/-- Modelled from the spec: the `on_thread_t` destructor body is not in
the provided source (utils.hpp:216 only declares it).  Per spec §4.2,
release migrates back to `origin` (skipped when `origin == target`). -/
def on_thread_destruct (g : on_thread_t) (s : ThreadState) : ThreadState :=
  if g.origin = g.target then s else ⟨g.origin⟩

/-- `interrupted_exc_t` (utils.hpp:58-63): an exception type with no data
members; a value of the embedding carries nothing. -/
structure interrupted_exc_t where
deriving DecidableEq, Repr

/-- `interrupted_exc_t::what` (utils.hpp:60-62): returns `"interrupted"`. -/
def interrupted_exc_t.what (_e : interrupted_exc_t) : String :=
  "interrupted"

/-! ## Helper lemmas -/

theorem repli_timestamp_t.ext_time {a b : repli_timestamp_t}
    (h : a.time = b.time) : a = b := by
  cases a; cases b; simpa using h

theorem repli_max_time (x y : repli_timestamp_t) :
    (repli_max x y).time = if x.time < y.time then y.time else x.time := by
  unfold repli_max
  split <;> rfl

/-! ## Claims -/

/-- C4: each of the comparison operators on `repli_timestamp_t` yields
exactly the result of the corresponding numeric comparison of the backing
`time` values. -/
theorem repli_comparisons_agree_with_time (x y : repli_timestamp_t) :
    (x.eq y = true ↔ x.time = y.time) ∧
    (x.ne y = true ↔ x.time ≠ y.time) ∧
    (x.lt y = true ↔ x.time < y.time) ∧
    (x.gt y = true ↔ x.time > y.time) ∧
    (x.le y = true ↔ x.time ≤ y.time) ∧
    (x.ge y = true ↔ x.time ≥ y.time) := by
  refine ⟨?_, ?_, ?_, ?_, ?_, ?_⟩ <;>
    simp [repli_timestamp_t.eq, repli_timestamp_t.ne, repli_timestamp_t.lt,
      repli_timestamp_t.gt, repli_timestamp_t.le, repli_timestamp_t.ge]

/-- C5: for every clock value strictly below the 32-bit limit
(`time < 2^32 - 1`), `next` increments the counter by exactly one. -/
theorem next_increments_below_limit (x : repli_timestamp_t)
    (h : x.time < 2 ^ 32 - 1) : x.next.time = x.time + 1 := by
  unfold repli_timestamp_t.next U32_MOD
  simp only
  exact Nat.mod_eq_of_lt (by omega)

/-- Witness for C5 at the concrete input `time = 5`. -/
theorem next_increments_below_limit_witness :
    (5 : Nat) < 2 ^ 32 - 1 ∧ (repli_timestamp_t.mk 5).next.time = 5 + 1 :=
  ⟨by norm_num, next_increments_below_limit ⟨5⟩ (by norm_num)⟩

/-- C9: `next` computes `(time + 1) mod 2^32`; in particular `next` of the
maximal representable counter wraps silently to `0`. -/
theorem next_wraps_mod_u32 (x : repli_timestamp_t) :
    x.next.time = (x.time + 1) % 2 ^ 32 ∧
    (repli_timestamp_t.mk (2 ^ 32 - 1)).next.time = 0 := by
  constructor
  · rfl
  · unfold repli_timestamp_t.next U32_MOD
    norm_num

/-- C1: constructing an `on_thread_t` guard for any target thread and then
destroying it restores the task's current thread, on the fast path
(`target = current`) and on the migration path alike. -/
theorem on_thread_round_trip (s : ThreadState) (target : Int) :
    on_thread_destruct (on_thread_construct s target).1
      (on_thread_construct s target).2 = s := by
  unfold on_thread_construct on_thread_destruct
  by_cases h : s.current = target
  · simp [h]
  · cases s
    simp_all

/-- C2: `repli_max` is commutative and its result dominates both operands
under the type's own `>=` operator. -/
theorem repli_max_comm_dominates (x y : repli_timestamp_t) :
    repli_max x y = repli_max y x ∧
    (repli_max x y).ge x = true ∧ (repli_max x y).ge y = true := by
  refine ⟨repli_timestamp_t.ext_time ?_, ?_, ?_⟩
  · rw [repli_max_time, repli_max_time]
    split_ifs <;> omega
  · simp only [repli_timestamp_t.ge, repli_max_time, decide_eq_true_eq]
    split_ifs <;> omega
  · simp only [repli_timestamp_t.ge, repli_max_time, decide_eq_true_eq]
    split_ifs <;> omega

/-- C3: `repli_max` is associative (settling the source comment's claim
that it is "technically not associative": on counter values the merge is
numeric maximum, which associates). -/
theorem repli_max_assoc (x y z : repli_timestamp_t) :
    repli_max (repli_max x y) z = repli_max x (repli_max y z) := by
  refine repli_timestamp_t.ext_time ?_
  simp only [repli_max_time]
  split_ifs <;> omega

/-- C6: in the diagnostics build, `assert_thread` faults (terminates the
process, embedded as `none`) exactly when the registry's current thread
differs from `home_thread()`; in the NDEBUG build it is a no-op leaving
the state unchanged for every object and calling thread. -/
theorem assert_thread_behavior (m : home_thread_mixin_t) (s : ThreadState) :
    (m.assert_thread_debug s = none ↔ s.current ≠ m.home_thread) ∧
    m.assert_thread_ndebug s = s := by
  constructor
  · unfold home_thread_mixin_t.assert_thread_debug
    by_cases h : s.current = m.home_thread <;> simp [h]
  · rfl

/-- C8: `interrupted_exc_t` carries no payload (any two instances are
equal) and `what()` returns the same fixed string `"interrupted"` on every
instance. -/
theorem interrupted_exc_fixed (e₁ e₂ : interrupted_exc_t) :
    e₁.what = "interrupted" ∧ e₁.what = e₂.what ∧ e₁ = e₂ :=
  ⟨rfl, rfl, rfl⟩

/-- C10: for positive alignment, `ceil_aligned value alignment` is the
least multiple of `alignment` that is at least `value`; in particular it
is `value` itself when `value` is already a multiple. -/
theorem ceil_aligned_least_multiple (value alignment : Nat)
    (ha : 0 < alignment) :
    alignment ∣ ceil_aligned value alignment ∧
    value ≤ ceil_aligned value alignment ∧
    (∀ k, alignment ∣ k → value ≤ k → ceil_aligned value alignment ≤ k) ∧
    (alignment ∣ value → ceil_aligned value alignment = value) := by
  have hm : (value + alignment - 1) % alignment < alignment :=
    Nat.mod_lt _ ha
  have hdm := Nat.div_add_mod (value + alignment - 1) alignment
  have hr : ceil_aligned value alignment =
      alignment * ((value + alignment - 1) / alignment) := by
    unfold ceil_aligned
    omega
  have hdvd : alignment ∣ ceil_aligned value alignment :=
    hr ▸ Dvd.intro _ rfl
  have hge : value ≤ ceil_aligned value alignment := by
    unfold ceil_aligned
    omega
  have hlt : ceil_aligned value alignment < value + alignment := by
    unfold ceil_aligned
    omega
  have hleast : ∀ k, alignment ∣ k → value ≤ k →
      ceil_aligned value alignment ≤ k := by
    intro k hk hvk
    obtain ⟨i, hi⟩ := hk
    obtain ⟨j, hj⟩ := hdvd
    have : alignment * j < alignment * i + alignment := by omega
    have hji : j ≤ i := by
      by_contra hcon
      push_neg at hcon
      have : alignment * i + alignment ≤ alignment * j :=
        by calc alignment * i + alignment = alignment * (i + 1) := by ring
          _ ≤ alignment * j := Nat.mul_le_mul_left _ (by omega)
      omega
    calc ceil_aligned value alignment = alignment * j := hj
      _ ≤ alignment * i := Nat.mul_le_mul_left _ hji
      _ = k := hi.symm
  refine ⟨hdvd, hge, hleast, fun hv => Nat.le_antisymm ?_ hge⟩
  exact hleast value hv (Nat.le_refl _)

/-- Witness for C10 at `value = 5`, `alignment = 4`: the least multiple of
4 at least 5 is 8, and the already-aligned clause at a multiple. -/
theorem ceil_aligned_least_multiple_witness :
    0 < 4 ∧ (4 ∣ ceil_aligned 5 4 ∧ 5 ≤ ceil_aligned 5 4 ∧
      (∀ k, 4 ∣ k → 5 ≤ k → ceil_aligned 5 4 ≤ k) ∧
      (4 ∣ 5 → ceil_aligned 5 4 = 5)) :=
  ⟨by norm_num, ceil_aligned_least_multiple 5 4 (by norm_num)⟩
